import Mathlib

/-!
Shallow embedding of the BRA AI compliance scoring pipeline
(`data_processor.py`, `anomaly_detector.py`, `risk_scorer.py`).

Numeric values are modelled as exact rationals; Python's wall clock is an
explicit `now : ℤ` parameter (seconds), with `timedelta.days` modelled by
floor division by 86400.  The fitted sklearn objects (StandardScaler,
IsolationForest, GradientBoostingClassifier) are parameters of the
embedding: a fitted scaler is a mean/scale pair, a fitted model is the
function it computes (`score_samples` resp. `predict_proba` / feature
importances).  Python `None` results, normal results and raised exceptions
are distinguished by `PyOutcome`.
-/

/- Batteries marks the arithmetic on `Rat` irreducible; the concrete
evaluations below need it unfolded for `decide`. -/
attribute [local semireducible] Rat.add Rat.mul Rat.inv Rat.sub

/-- Python's `round` / `%.nf` formatting: round half to even, on exact
rationals. -/
def pyRound (q : ℚ) : ℤ :=
  if q - (⌊q⌋ : ℚ) < 1/2 then ⌊q⌋
  else if 1/2 < q - (⌊q⌋ : ℚ) then ⌊q⌋ + 1
  else if ⌊q⌋ % 2 = 0 then ⌊q⌋ else ⌊q⌋ + 1

/-- `round(x, k)` in Python: round half to even at `k` decimal places. -/
def roundTo (k : ℕ) (q : ℚ) : ℚ :=
  (pyRound (q * (10:ℚ)^k) : ℚ) / (10:ℚ)^k

/-- `round(x, 4)` as used for all reported scores. -/
def round4 (q : ℚ) : ℚ := roundTo 4 q

/-- `round(x, 2)` as used for the deviation percentage. -/
def round2 (q : ℚ) : ℚ := roundTo 2 q

/-- Python `f-string` formatting `"{x:.1f}"` on an exact rational. -/
def fmt1 (q : ℚ) : String :=
  let n : ℤ := pyRound (q * 10)
  let m : ℕ := n.natAbs
  (if n < 0 then "-" else "") ++ toString (m / 10) ++ "." ++ toString (m % 10)

/-- A float that may be infinite: raw feature values before the
`np.where(np.isinf(X), 0, X)` substitution. -/
inductive XQ where
  | fin (q : ℚ)
  | posInf
  | negInf
deriving DecidableEq

/-- The `np.where(np.isinf(X), 0, X)` substitution: infinities become 0. -/
def zeroIfInf : XQ → ℚ
  | .fin q => q
  | .posInf => 0
  | .negInf => 0

/-- Python `None` / normal result / raised exception. -/
inductive PyOutcome (α : Type) where
  | ok : α → PyOutcome α
  | noneVal : PyOutcome α
  | raised : PyOutcome α
deriving DecidableEq

/-- Whether an outcome is a raised exception. -/
def PyOutcome.isRaised : PyOutcome α → Bool
  | .raised => true
  | _ => false

/-- Extract a normal result, `none` for Python `None` or an exception. -/
def PyOutcome.toOpt : PyOutcome α → Option α
  | .ok a => some a
  | _ => none

/- ## Data model (`§3`, CSV rows after load and type coercion) -/

/-- One row of `taxpayer_master.csv`; `registrationDate` in seconds. -/
structure Taxpayer where
  id : String
  businessName : String
  industryCode : String
  industryName : String
  registrationDate : ℤ
deriving DecidableEq

/-- One row of `tax_returns.csv`. -/
structure TaxReturn where
  taxpayerId : String
  taxPeriod : ℤ
  grossRevenue : ℚ
  taxLiability : ℚ
  inputTaxClaim : ℚ
deriving DecidableEq

/-- One row of `audit_history.csv`. -/
structure AuditRecord where
  taxpayerId : String
  auditStartDate : ℤ
  finding : String
  taxRecovery : ℚ
deriving DecidableEq

/-- The Data Store after `load_data`: the three row collections, in stored
order. -/
structure DataStore where
  master : List Taxpayer
  returnsData : List TaxReturn
  auditData : List AuditRecord
deriving DecidableEq

/-- The per-taxpayer Feature Vector returned by
`DataProcessor.get_taxpayer_features`. -/
structure Features where
  taxpayerId : String
  businessName : String
  industryCode : String
  industryName : String
  grossRevenue : ℚ
  taxLiability : ℚ
  inputTaxClaim : ℚ
  inputTaxRatio_ : ℚ
  revenueGrowth : ℚ
  numReturns : ℕ
  daysSinceRegistration : ℤ
deriving DecidableEq

/-- `DataProcessor.get_taxpayer_features`: `None` when the taxpayer id is
unknown or has no returns; otherwise the Feature Vector built from the
latest (last stored) and second-latest returns.  `now` is the value of
`datetime.now()` in seconds; `.days` of a timedelta is floor division. -/
def get_taxpayer_features (ds : DataStore) (now : ℤ) (tid : String) : Option Features :=
  match ds.master.filter (fun t => t.id == tid) with
  | [] => none
  | tp :: _ =>
    match (ds.returnsData.filter (fun r => r.taxpayerId == tid)).reverse with
    | [] => none
    | latest :: rest =>
      some
        { taxpayerId := tid
          businessName := tp.businessName
          industryCode := tp.industryCode
          industryName := tp.industryName
          grossRevenue := latest.grossRevenue
          taxLiability := latest.taxLiability
          inputTaxClaim := latest.inputTaxClaim
          inputTaxRatio_ :=
            if latest.grossRevenue > 0 then latest.inputTaxClaim / latest.grossRevenue else 0
          revenueGrowth :=
            match rest with
            | [] => 0
            | prev :: _ =>
              if prev.grossRevenue > 0 then
                (latest.grossRevenue - prev.grossRevenue) / prev.grossRevenue
              else 0
          numReturns := (ds.returnsData.filter (fun r => r.taxpayerId == tid)).length
          daysSinceRegistration := Int.fdiv (now - tp.registrationDate) 86400 }

/-- `DataProcessor.get_all_taxpayer_features`: features for every taxpayer
in master order, skipping `None`. -/
def get_all_taxpayer_features (ds : DataStore) (now : ℤ) : List Features :=
  ds.master.filterMap (fun t => get_taxpayer_features ds now t.id)

/-- The inner join `returns_data.merge(master[Industry_Code == code][[Taxpayer_ID]])`:
each return row repeated once per matching master row. -/
def industryReturnsOf (ds : DataStore) (code : String) : List TaxReturn :=
  ds.returnsData.flatMap (fun r =>
    ((ds.master.filter (fun t => t.industryCode == code)).filter
      (fun t => t.id == r.taxpayerId)).map (fun _ => r))

/-- `DataProcessor.get_industry_benchmark`: aggregate input-tax claim over
aggregate gross revenue of the industry's returns, defaulting to 0.1 for an
empty industry or non-positive aggregate revenue. -/
def get_industry_benchmark (ds : DataStore) (code : String) : ℚ :=
  if (industryReturnsOf ds code).isEmpty then 1/10
  else
    if ((industryReturnsOf ds code).map (fun r => r.grossRevenue)).sum > 0 then
      ((industryReturnsOf ds code).map (fun r => r.inputTaxClaim)).sum /
        ((industryReturnsOf ds code).map (fun r => r.grossRevenue)).sum
    else 1/10

/- ## Sorting (model of pandas `sort_values(..., ascending=False)`) -/

/-- Insert into a list that is kept ordered by descending key. -/
def insertDesc (key : α → ℚ) (a : α) : List α → List α
  | [] => [a]
  | b :: t => if key b ≤ key a then a :: b :: t else b :: insertDesc key a t

/-- Sort a list by descending key. -/
def sortDesc (key : α → ℚ) : List α → List α
  | [] => []
  | a :: t => insertDesc key a (sortDesc key t)

/- ## Anomaly Scorer (`anomaly_detector.py`) -/

/-- A fitted `StandardScaler` over the 3 anomaly features. -/
structure Scaler3 where
  mean : Fin 3 → ℚ
  scale : Fin 3 → ℚ

/-- An `AnomalyDetector`: the fitted scaler and the fitted isolation
model's `score_samples` function, `none` for each before `train`. -/
structure AnomalyDetector where
  scaler : Option Scaler3
  model : Option ((Fin 3 → ℚ) → ℚ)

/-- The raw 3-feature vector `[[Input_Tax_Ratio, Revenue_Growth,
Days_Since_Registration]]` built by `detect_anomaly`, possibly holding
infinities. -/
def featX (f : Features) : Fin 3 → XQ :=
  ![XQ.fin f.inputTaxRatio_, XQ.fin f.revenueGrowth, XQ.fin (f.daysSinceRegistration : ℚ)]

/-- The affine map and clamp `max(0, min(1, (raw + 1) / 2))`. -/
def clampScore (raw : ℚ) : ℚ := max 0 (min 1 ((raw + 1) / 2))

/-- The `scaler.transform` step applied to the infinity-zeroed raw
3-feature vector. -/
def anomalyScaled (sc : Scaler3) (x : Fin 3 → XQ) : Fin 3 → ℚ :=
  fun i => (zeroIfInf (x i) - sc.mean i) / sc.scale i

/-- The anomaly score computed by `detect_anomaly` from a raw (possibly
infinite) 3-feature vector: zero infinities, standardize, negate the
model's `score_samples` value, affine-map and clamp. -/
def anomalyScoreCore (m : (Fin 3 → ℚ) → ℚ) (sc : Scaler3) (x : Fin 3 → XQ) : ℚ :=
  clampScore (-(m (anomalyScaled sc x)))

/-- The result row of `detect_anomaly`. -/
structure AnomalyResult where
  taxpayerId : String
  businessName : String
  industryName : String
  inputTaxRatio_ : ℚ
  revenueGrowth : ℚ
  anomalyScore : ℚ
  isAnomalous : Bool
deriving DecidableEq

/-- `AnomalyDetector.detect_anomaly`: `None` when features are missing;
raises (`NotFittedError` / attribute error on `None`) when the scaler or
model is not fitted; otherwise the result row, with the reported
`Anomaly_Score` rounded to 4 decimals and `Is_Anomalous` comparing the
unrounded score with 0.5. -/
def detect_anomaly (ad : AnomalyDetector) (ds : DataStore) (now : ℤ) (tid : String) :
    PyOutcome AnomalyResult :=
  match get_taxpayer_features ds now tid with
  | none => .noneVal
  | some f =>
    match ad.scaler, ad.model with
    | some sc, some m =>
      .ok
        { taxpayerId := tid
          businessName := f.businessName
          industryName := f.industryName
          inputTaxRatio_ := round4 f.inputTaxRatio_
          revenueGrowth := round4 f.revenueGrowth
          anomalyScore := round4 (anomalyScoreCore m sc (featX f))
          isAnomalous := decide (anomalyScoreCore m sc (featX f) > 1/2) }
    | _, _ => .raised

/-- `AnomalyDetector.detect_all_anomalies`: detect for every taxpayer in
master order, skip `None`, sort by `Anomaly_Score` descending.  A raised
per-taxpayer detection propagates; sorting the empty frame raises a
`KeyError` on the missing column. -/
def detect_all_anomalies (ad : AnomalyDetector) (ds : DataStore) (now : ℤ) :
    PyOutcome (List AnomalyResult) :=
  if (ds.master.map (fun t => detect_anomaly ad ds now t.id)).any PyOutcome.isRaised then
    .raised
  else if ((ds.master.map (fun t => detect_anomaly ad ds now t.id)).filterMap
      PyOutcome.toOpt).isEmpty then
    .raised
  else
    .ok (sortDesc (fun r => r.anomalyScore)
      ((ds.master.map (fun t => detect_anomaly ad ds now t.id)).filterMap PyOutcome.toOpt))

/-- The `ratio_deviation` of `_generate_explanation`: relative deviation of
the input-tax ratio from the benchmark, 0 when the benchmark is not
positive. -/
def ratioDevOf (itr bm : ℚ) : ℚ :=
  if bm > 0 then (itr - bm) / bm else 0

/-- The ratio-deviation rule messages of `_generate_explanation`. -/
def ratioMsg (itr bm : ℚ) : List String :=
  if ratioDevOf itr bm > 1 then
    ["Input tax claim is " ++ fmt1 (ratioDevOf itr bm * 100) ++ "% higher than industry benchmark"]
  else if ratioDevOf itr bm < -(1/2) then
    ["Input tax claim is " ++ fmt1 (|ratioDevOf itr bm| * 100) ++ "% lower than industry benchmark"]
  else []

/-- The revenue-growth rule messages of `_generate_explanation`. -/
def growthMsg (g : ℚ) : List String :=
  if g > 1/2 then ["Revenue grew by " ++ fmt1 (g * 100) ++ "% (unusually high)"]
  else if g < -(3/10) then ["Revenue declined by " ++ fmt1 (|g| * 100) ++ "%"]
  else []

/-- `AnomalyDetector._generate_explanation`: join the triggered rule
messages with " | ", defaulting when neither rule fires. -/
def generateExplanation (itr g bm : ℚ) : String :=
  if (ratioMsg itr bm ++ growthMsg g).isEmpty then "No significant anomalies detected"
  else String.intercalate " | " (ratioMsg itr bm ++ growthMsg g)

/-- The result of `get_anomaly_explanation`. -/
structure AnomalyExplanation where
  taxpayerId : String
  inputTaxRatio_ : ℚ
  industryBenchmark : ℚ
  deviation : ℚ
  deviationPct : ℚ
  revenueGrowth : ℚ
  explanationText : String
deriving DecidableEq

/-- `AnomalyDetector.get_anomaly_explanation`: `None` without features,
otherwise the explanation record.  No fitted model is consulted. -/
def get_anomaly_explanation (ds : DataStore) (now : ℤ) (tid : String) :
    Option AnomalyExplanation :=
  (get_taxpayer_features ds now tid).map fun f =>
    let bm := get_industry_benchmark ds f.industryCode
    { taxpayerId := tid
      inputTaxRatio_ := round4 f.inputTaxRatio_
      industryBenchmark := round4 bm
      deviation := round4 (f.inputTaxRatio_ - bm)
      deviationPct := if bm > 0 then round2 ((f.inputTaxRatio_ - bm) / bm * 100) else 0
      revenueGrowth := round4 f.revenueGrowth
      explanationText := generateExplanation f.inputTaxRatio_ f.revenueGrowth bm }

/- ## Risk Scorer (`risk_scorer.py`) -/

/-- A fitted `StandardScaler` over the 5 risk features. -/
structure Scaler5 where
  mean : Fin 5 → ℚ
  scale : Fin 5 → ℚ

/-- A fitted gradient-boosting classifier: the positive-class
`predict_proba` function and the feature importances. -/
structure RiskModel where
  predictProba : (Fin 5 → ℚ) → ℚ
  featureImportances : Fin 5 → ℚ

/-- A `RiskScorer`: fitted scaler and model, `none` before `train`. -/
structure RiskScorer where
  scaler : Option Scaler5
  model : Option RiskModel

/-- `RiskScorer._get_risk_level`: the threshold step function. -/
def getRiskLevel (s : ℚ) : String :=
  if s ≥ 7/10 then "CRITICAL"
  else if s ≥ 1/2 then "HIGH"
  else if s ≥ 3/10 then "MEDIUM"
  else "LOW"

/-- The result row of `score_taxpayer`. -/
structure RiskResult where
  taxpayerId : String
  businessName : String
  industryName : String
  riskScore : ℚ
  riskLevel : String
  anomalyScore : ℚ
deriving DecidableEq

/-- The raw 5-feature vector built by `score_taxpayer`. -/
def riskFeatX (f : Features) (ascore : ℚ) : Fin 5 → XQ :=
  ![XQ.fin f.inputTaxRatio_, XQ.fin f.revenueGrowth, XQ.fin (f.daysSinceRegistration : ℚ),
    XQ.fin ascore, XQ.fin (f.numReturns : ℚ)]

/-- The `scaler.transform` step applied to the infinity-zeroed raw
5-feature vector. -/
def riskScaled (sc : Scaler5) (f : Features) (ascore : ℚ) : Fin 5 → ℚ :=
  fun i => (zeroIfInf (riskFeatX f ascore i) - sc.mean i) / sc.scale i

/-- The scoring tail of `score_taxpayer` once features and the anomaly
score are in hand: zero infinities, standardize, `predict_proba`, report
the rounded probability and the level of the unrounded one. -/
def riskScoreCore (sc : Scaler5) (m : RiskModel) (f : Features) (ascore : ℚ) : RiskResult :=
  { taxpayerId := f.taxpayerId
    businessName := f.businessName
    industryName := f.industryName
    riskScore := round4 (m.predictProba (riskScaled sc f ascore))
    riskLevel := getRiskLevel (m.predictProba (riskScaled sc f ascore))
    anomalyScore := round4 ascore }

/-- `RiskScorer.score_taxpayer`: `None` without features; the nested
`detect_anomaly` call's exception propagates; an unfitted risk scaler or
model raises; otherwise the risk result row (anomaly score 0 when the
anomaly result was `None`). -/
def score_taxpayer (rs : RiskScorer) (ad : AnomalyDetector) (ds : DataStore) (now : ℤ)
    (tid : String) : PyOutcome RiskResult :=
  match get_taxpayer_features ds now tid with
  | none => .noneVal
  | some f =>
    match detect_anomaly ad ds now tid with
    | .raised => .raised
    | .noneVal =>
      match rs.scaler, rs.model with
      | some sc, some m => .ok (riskScoreCore sc m f 0)
      | _, _ => .raised
    | .ok a =>
      match rs.scaler, rs.model with
      | some sc, some m => .ok (riskScoreCore sc m f a.anomalyScore)
      | _, _ => .raised

/-- `RiskScorer.score_all_taxpayers`: score every taxpayer in master
order, skip `None`, sort by `Risk_Score` descending; exceptions propagate
and sorting the empty frame raises. -/
def score_all_taxpayers (rs : RiskScorer) (ad : AnomalyDetector) (ds : DataStore) (now : ℤ) :
    PyOutcome (List RiskResult) :=
  if (ds.master.map (fun t => score_taxpayer rs ad ds now t.id)).any PyOutcome.isRaised then
    .raised
  else if ((ds.master.map (fun t => score_taxpayer rs ad ds now t.id)).filterMap
      PyOutcome.toOpt).isEmpty then
    .raised
  else
    .ok (sortDesc (fun r => r.riskScore)
      ((ds.master.map (fun t => score_taxpayer rs ad ds now t.id)).filterMap PyOutcome.toOpt))

/-- The feature-name list fixed by `RiskScorer.train`. -/
def riskFeatureNames : List String :=
  ["Input_Tax_Ratio", "Revenue_Growth", "Days_Since_Registration", "Anomaly_Score", "Num_Returns"]

/-- `RiskScorer.get_feature_importance`: silently `None` when no model has
been trained, otherwise the name/importance pairs rounded to 4 decimals. -/
def get_feature_importance (rs : RiskScorer) : PyOutcome (List (String × ℚ)) :=
  match rs.model with
  | none => .noneVal
  | some m => .ok (riskFeatureNames.zip ((List.finRange 5).map (fun i => round4 (m.featureImportances i))))

/-- `RiskScorer._get_recommendation`: the fixed per-level sentences. -/
def getRecommendation (level : String) : String :=
  if level = "CRITICAL" then "Immediate audit recommended. Potential fraud indicators detected."
  else if level = "HIGH" then "Priority audit recommended. Multiple risk factors present."
  else if level = "MEDIUM" then "Routine audit recommended. Some anomalies detected."
  else if level = "LOW" then "Standard monitoring. No immediate action required."
  else "Review recommended."

/-- The result of `get_risk_explanation`. -/
structure RiskExplanation where
  taxpayerId : String
  riskScore : ℚ
  riskLevel : String
  kfInputTax : ℚ
  kfGrowth : ℚ
  kfAnomaly : ℚ
  kfNumReturns : ℕ
  anomalyExplanationText : String
  recommendation : String
deriving DecidableEq

/-- `RiskScorer.get_risk_explanation`: composes `score_taxpayer`, the
features and `get_anomaly_explanation`; a raised score propagates, a
`None` score or missing features gives `None`. -/
def get_risk_explanation (rs : RiskScorer) (ad : AnomalyDetector) (ds : DataStore) (now : ℤ)
    (tid : String) : PyOutcome RiskExplanation :=
  match score_taxpayer rs ad ds now tid with
  | .raised => .raised
  | .noneVal => .noneVal
  | .ok s =>
    match get_taxpayer_features ds now tid with
    | none => .noneVal
    | some f =>
      match get_anomaly_explanation ds now tid with
      | none => .raised
      | some ae =>
        .ok
          { taxpayerId := tid
            riskScore := s.riskScore
            riskLevel := s.riskLevel
            kfInputTax := round4 f.inputTaxRatio_
            kfGrowth := round4 f.revenueGrowth
            kfAnomaly := s.anomalyScore
            kfNumReturns := f.numReturns
            anomalyExplanationText := ae.explanationText
            recommendation := getRecommendation s.riskLevel }

/-- The training label of `RiskScorer.train`: per-taxpayer `max` of the
indicator `Audit_Finding == "Non-Compliant"` over its audit records, with
the left-join `fillna(0)` giving 0 when there is no audit record. -/
def isNonCompliantLabel (ds : DataStore) (tid : String) : ℕ :=
  ((ds.auditData.filter (fun a => a.taxpayerId == tid)).map
    (fun a => if a.finding == "Non-Compliant" then (1:ℕ) else 0)).foldr max 0

/-- The labelled training population of `RiskScorer.train`: every taxpayer
with a Feature Vector paired with its derived label. -/
def trainingLabels (ds : DataStore) (now : ℤ) : List (String × ℕ) :=
  (get_all_taxpayer_features ds now).map (fun f => (f.taxpayerId, isNonCompliantLabel ds f.taxpayerId))

/- ## Concrete fixtures -/

/-- A one-taxpayer, one-return data store. -/
def dsW : DataStore :=
  { master := [{ id := "T1", businessName := "B1", industryCode := "IND1",
                 industryName := "Retail", registrationDate := 0 }]
    returnsData := [{ taxpayerId := "T1", taxPeriod := 0, grossRevenue := 100,
                      taxLiability := 10, inputTaxClaim := 10 }]
    auditData := [] }

/-- The Feature Vector of taxpayer `T1` in `dsW` at time 0. -/
def fW : Features :=
  { taxpayerId := "T1", businessName := "B1", industryCode := "IND1", industryName := "Retail"
    grossRevenue := 100, taxLiability := 10, inputTaxClaim := 10
    inputTaxRatio_ := 1/10, revenueGrowth := 0, numReturns := 1, daysSinceRegistration := 0 }

/-- Identity scaler over the 3 anomaly features. -/
def scaler3Id : Scaler3 := { mean := fun _ => 0, scale := fun _ => 1 }

/-- Identity scaler over the 5 risk features. -/
def scaler5Id : Scaler5 := { mean := fun _ => 0, scale := fun _ => 1 }

/-- A trained detector whose raw outlier measure is constantly `-1/3`. -/
def adCex : AnomalyDetector := { scaler := some scaler3Id, model := some (fun _ => -(1/3)) }

/-- The result `detect_anomaly` computes for `T1` in `dsW` under `adCex`:
the unrounded clamped score there is `2/3`, reported as `0.6667`. -/
def resCex : AnomalyResult :=
  { taxpayerId := "T1", businessName := "B1", industryName := "Retail",
    inputTaxRatio_ := 1/10, revenueGrowth := 0,
    anomalyScore := 6667/10000, isAnomalous := true }

/-- A trained risk scorer predicting non-compliance probability 0.69996. -/
def rsC10 : RiskScorer :=
  { scaler := some scaler5Id
    model := some { predictProba := fun _ => 69996/100000, featureImportances := fun _ => 0 } }

/-- The result `score_taxpayer` computes for `T1` in `dsW` under `rsC10`:
probability 0.69996 reported as `Risk_Score` 0.7 with `Risk_Level` HIGH. -/
def resC10 : RiskResult :=
  { taxpayerId := "T1", businessName := "B1", industryName := "Retail",
    riskScore := 7/10, riskLevel := "HIGH", anomalyScore := 6667/10000 }

/-- Data store for the label-derivation scenario: `TA` has findings
[Compliant, Non-Compliant], `TB` only [Compliant], `TC` no audit record. -/
def dsC5 : DataStore :=
  { master :=
      [{ id := "TA", businessName := "BA", industryCode := "IND1",
         industryName := "Retail", registrationDate := 0 },
       { id := "TB", businessName := "BB", industryCode := "IND1",
         industryName := "Retail", registrationDate := 0 },
       { id := "TC", businessName := "BC", industryCode := "IND1",
         industryName := "Retail", registrationDate := 0 }]
    returnsData :=
      [{ taxpayerId := "TA", taxPeriod := 0, grossRevenue := 100, taxLiability := 10, inputTaxClaim := 10 },
       { taxpayerId := "TB", taxPeriod := 0, grossRevenue := 100, taxLiability := 10, inputTaxClaim := 10 },
       { taxpayerId := "TC", taxPeriod := 0, grossRevenue := 100, taxLiability := 10, inputTaxClaim := 10 }]
    auditData :=
      [{ taxpayerId := "TA", auditStartDate := 0, finding := "Compliant", taxRecovery := 0 },
       { taxpayerId := "TA", auditStartDate := 1, finding := "Non-Compliant", taxRecovery := 5 },
       { taxpayerId := "TB", auditStartDate := 0, finding := "Compliant", taxRecovery := 0 }] }

/-- Data store exercising the degenerate divisions: `T7` has two returns,
the earlier with zero revenue, the latest with negative revenue. -/
def ds7 : DataStore :=
  { master := [{ id := "T7", businessName := "B7", industryCode := "IND7",
                 industryName := "Mining", registrationDate := 0 }]
    returnsData :=
      [{ taxpayerId := "T7", taxPeriod := 0, grossRevenue := 0, taxLiability := 0, inputTaxClaim := 3 },
       { taxpayerId := "T7", taxPeriod := 1, grossRevenue := -5, taxLiability := 0, inputTaxClaim := 3 }]
    auditData := [] }

/-- The Feature Vector of `T7` in `ds7`: both degenerate divisions yield 0. -/
def f7 : Features :=
  { taxpayerId := "T7", businessName := "B7", industryCode := "IND7", industryName := "Mining"
    grossRevenue := -5, taxLiability := 0, inputTaxClaim := 3
    inputTaxRatio_ := 0, revenueGrowth := 0, numReturns := 2, daysSinceRegistration := 0 }

/-- The latest stored return of `T7` in `ds7`. -/
def r7latest : TaxReturn :=
  { taxpayerId := "T7", taxPeriod := 1, grossRevenue := -5, taxLiability := 0, inputTaxClaim := 3 }

/-- An anomaly detector before `train`: nothing fitted. -/
def adU : AnomalyDetector := { scaler := none, model := none }

/-- A risk scorer before `train`: nothing fitted. -/
def rsU : RiskScorer := { scaler := none, model := none }

/-- A fitted raw outlier measure that is constantly 0. -/
def m3W : (Fin 3 → ℚ) → ℚ := fun _ => 0

/-- A trained detector built from `m3W`. -/
def adW : AnomalyDetector := { scaler := some scaler3Id, model := some m3W }

/-- A fitted classifier predicting probability 17/20 everywhere. -/
def m5W : RiskModel := { predictProba := fun _ => 17/20, featureImportances := fun _ => 0 }

/-- A trained risk scorer built from `m5W`. -/
def rsW : RiskScorer := { scaler := some scaler5Id, model := some m5W }

/-- The result `detect_anomaly` computes for `T1` in `dsW` under `adW`. -/
def resW : AnomalyResult :=
  { taxpayerId := "T1", businessName := "B1", industryName := "Retail",
    inputTaxRatio_ := 1/10, revenueGrowth := 0, anomalyScore := 1/2, isAnomalous := false }

/-- The result `score_taxpayer` computes for `T1` in `dsW` under `rsW`. -/
def rresW : RiskResult :=
  { taxpayerId := "T1", businessName := "B1", industryName := "Retail",
    riskScore := 17/20, riskLevel := "CRITICAL", anomalyScore := 1/2 }

/- ## Helper lemmas -/

theorem pyRound_ge_floor (q : ℚ) : ⌊q⌋ ≤ pyRound q := by
  unfold pyRound
  repeat' split
  all_goals omega

theorem pyRound_le_ceil (q : ℚ) : pyRound q ≤ ⌈q⌉ := by
  have hfc : ⌊q⌋ ≤ ⌈q⌉ := Int.floor_le_ceil q
  have hlt : (⌊q⌋ : ℚ) < q → ⌊q⌋ + 1 ≤ ⌈q⌉ := fun h => Int.add_one_le_ceil_iff.mpr h
  unfold pyRound
  split
  · exact hfc
  · split
    · rename_i h1 h2
      exact hlt (by linarith)
    · split
      · exact hfc
      · rename_i h1 h2 h3
        have heq : q - (⌊q⌋ : ℚ) = 1/2 := le_antisymm (not_lt.mp h2) (not_lt.mp h1)
        exact hlt (by linarith)

theorem roundTo_nonneg {k : ℕ} {q : ℚ} (h : 0 ≤ q) : 0 ≤ roundTo k q := by
  unfold roundTo
  have hp : (0:ℚ) < (10:ℚ)^k := by positivity
  have h0 : (0:ℤ) ≤ ⌊q * (10:ℚ)^k⌋ := Int.floor_nonneg.mpr (by positivity)
  have h1 : (0:ℤ) ≤ pyRound (q * (10:ℚ)^k) := le_trans h0 (pyRound_ge_floor _)
  exact div_nonneg (by exact_mod_cast h1) (le_of_lt hp)

theorem roundTo_le_one {k : ℕ} {q : ℚ} (h : q ≤ 1) : roundTo k q ≤ 1 := by
  unfold roundTo
  have hp : (0:ℚ) < (10:ℚ)^k := by positivity
  have hc : ⌈q * (10:ℚ)^k⌉ ≤ (10:ℤ)^k := by
    rw [Int.ceil_le]
    push_cast
    nlinarith
  have hr : pyRound (q * (10:ℚ)^k) ≤ (10:ℤ)^k := le_trans (pyRound_le_ceil _) hc
  rw [div_le_one hp]
  calc (pyRound (q * (10:ℚ)^k) : ℚ) ≤ (((10:ℤ)^k : ℤ) : ℚ) := by exact_mod_cast hr
  _ = (10:ℚ)^k := by push_cast; ring

theorem round4_mem_unit {q : ℚ} (h0 : 0 ≤ q) (h1 : q ≤ 1) :
    0 ≤ round4 q ∧ round4 q ≤ 1 :=
  ⟨roundTo_nonneg h0, roundTo_le_one h1⟩

theorem clampScore_nonneg (raw : ℚ) : 0 ≤ clampScore raw := le_max_left _ _

theorem clampScore_le_one (raw : ℚ) : clampScore raw ≤ 1 :=
  max_le zero_le_one (min_le_left _ _)

theorem anomalyScoreCore_mem_unit (m : (Fin 3 → ℚ) → ℚ) (sc : Scaler3) (x : Fin 3 → XQ) :
    0 ≤ anomalyScoreCore m sc x ∧ anomalyScoreCore m sc x ≤ 1 :=
  ⟨clampScore_nonneg _, clampScore_le_one _⟩

theorem mem_insertDesc {key : α → ℚ} {a x : α} {l : List α} :
    x ∈ insertDesc key a l ↔ x = a ∨ x ∈ l := by
  induction l with
  | nil => simp [insertDesc]
  | cons b t ih =>
    unfold insertDesc
    split
    · simp
    · simp only [List.mem_cons, ih]
      tauto

theorem mem_sortDesc {key : α → ℚ} {x : α} {l : List α} :
    x ∈ sortDesc key l ↔ x ∈ l := by
  induction l with
  | nil => simp [sortDesc]
  | cons a t ih =>
    unfold sortDesc
    simp only [mem_insertDesc, List.mem_cons, ih]

theorem features_some_tid {ds : DataStore} {now : ℤ} {tid : String} {f : Features}
    (h : get_taxpayer_features ds now tid = some f) : f.taxpayerId = tid := by
  unfold get_taxpayer_features at h
  split at h
  · exact absurd h (by simp)
  · split at h
    · exact absurd h (by simp)
    · simp only [Option.some.injEq] at h
      rw [← h]

theorem detect_anomaly_of_none {ad : AnomalyDetector} {ds : DataStore} {now : ℤ} {tid : String}
    (h : get_taxpayer_features ds now tid = none) :
    detect_anomaly ad ds now tid = .noneVal := by
  unfold detect_anomaly
  rw [h]

theorem detect_anomaly_trained {ad : AnomalyDetector} {ds : DataStore} {now : ℤ} {tid : String}
    {f : Features} {sc : Scaler3} {m : (Fin 3 → ℚ) → ℚ}
    (hf : get_taxpayer_features ds now tid = some f)
    (hsc : ad.scaler = some sc) (hm : ad.model = some m) :
    detect_anomaly ad ds now tid =
      .ok
        { taxpayerId := tid
          businessName := f.businessName
          industryName := f.industryName
          inputTaxRatio_ := round4 f.inputTaxRatio_
          revenueGrowth := round4 f.revenueGrowth
          anomalyScore := round4 (anomalyScoreCore m sc (featX f))
          isAnomalous := decide (anomalyScoreCore m sc (featX f) > 1/2) } := by
  unfold detect_anomaly
  rw [hf, hsc, hm]

theorem detect_anomaly_unfitted {ad : AnomalyDetector} {ds : DataStore} {now : ℤ} {tid : String}
    {f : Features} (hf : get_taxpayer_features ds now tid = some f) (hsc : ad.scaler = none) :
    detect_anomaly ad ds now tid = .raised := by
  unfold detect_anomaly
  rw [hf, hsc]

theorem detect_anomaly_ok_tid {ad : AnomalyDetector} {ds : DataStore} {now : ℤ} {tid : String}
    {r : AnomalyResult} (h : detect_anomaly ad ds now tid = .ok r) : r.taxpayerId = tid := by
  unfold detect_anomaly at h
  rcases hf : get_taxpayer_features ds now tid with _ | f <;> rw [hf] at h
  · exact absurd h (by simp)
  · rcases hsc : ad.scaler with _ | sc <;> rcases hm : ad.model with _ | m <;>
      rw [hsc, hm] at h
    · exact absurd h (by simp)
    · exact absurd h (by simp)
    · exact absurd h (by simp)
    · simp only [PyOutcome.ok.injEq] at h
      rw [← h]

theorem score_taxpayer_of_none {rs : RiskScorer} {ad : AnomalyDetector} {ds : DataStore}
    {now : ℤ} {tid : String} (h : get_taxpayer_features ds now tid = none) :
    score_taxpayer rs ad ds now tid = .noneVal := by
  unfold score_taxpayer
  rw [h]

theorem score_taxpayer_ok_shape {rs : RiskScorer} {ad : AnomalyDetector} {ds : DataStore}
    {now : ℤ} {tid : String} {r : RiskResult}
    (h : score_taxpayer rs ad ds now tid = .ok r) :
    ∃ sc m f ascore, rs.scaler = some sc ∧ rs.model = some m ∧
      get_taxpayer_features ds now tid = some f ∧ r = riskScoreCore sc m f ascore := by
  unfold score_taxpayer at h
  rcases hf : get_taxpayer_features ds now tid with _ | f <;> rw [hf] at h
  · exact absurd h (by simp)
  · rcases hd : detect_anomaly ad ds now tid with a | _ | _ <;> rw [hd] at h
    · rcases hsc : rs.scaler with _ | sc <;> rcases hm : rs.model with _ | m <;>
        rw [hsc, hm] at h
      · exact absurd h (by simp)
      · exact absurd h (by simp)
      · exact absurd h (by simp)
      · simp only [PyOutcome.ok.injEq] at h
        exact ⟨sc, m, f, a.anomalyScore, rfl, rfl, rfl, h.symm⟩
    · rcases hsc : rs.scaler with _ | sc <;> rcases hm : rs.model with _ | m <;>
        rw [hsc, hm] at h
      · exact absurd h (by simp)
      · exact absurd h (by simp)
      · exact absurd h (by simp)
      · simp only [PyOutcome.ok.injEq] at h
        exact ⟨sc, m, f, 0, rfl, rfl, rfl, h.symm⟩
    · exact absurd h (by simp)

theorem score_taxpayer_ok_tid {rs : RiskScorer} {ad : AnomalyDetector} {ds : DataStore}
    {now : ℤ} {tid : String} {r : RiskResult}
    (h : score_taxpayer rs ad ds now tid = .ok r) : r.taxpayerId = tid := by
  obtain ⟨sc, m, f, ascore, _, _, hf, hr⟩ := score_taxpayer_ok_shape h
  rw [hr]
  exact features_some_tid hf

theorem score_taxpayer_unfitted {rs : RiskScorer} {ad : AnomalyDetector} {ds : DataStore}
    {now : ℤ} {tid : String} {f : Features}
    (hf : get_taxpayer_features ds now tid = some f) (hsc : rs.scaler = none) :
    score_taxpayer rs ad ds now tid = .raised := by
  unfold score_taxpayer
  rw [hf, hsc]
  rcases detect_anomaly ad ds now tid with a | _ | _ <;>
    rcases rs.model with _ | m <;> rfl

theorem features_now_congr (ds : DataStore) (now1 now2 : ℤ) (tid : String)
    (h : ∀ t ∈ ds.master,
      Int.fdiv (now1 - t.registrationDate) 86400 = Int.fdiv (now2 - t.registrationDate) 86400) :
    get_taxpayer_features ds now1 tid = get_taxpayer_features ds now2 tid := by
  unfold get_taxpayer_features
  rcases hm : ds.master.filter (fun t => t.id == tid) with _ | ⟨tp, tl⟩
  · simp only [hm]
  · have htp : tp ∈ ds.master := by
      refine List.mem_of_mem_filter (p := fun t => t.id == tid) ?_
      rw [hm]
      exact List.mem_cons_self tp tl
    simp only [hm, h tp htp]

theorem detect_now_congr (ad : AnomalyDetector) (ds : DataStore) (now1 now2 : ℤ) (tid : String)
    (h : ∀ t ∈ ds.master,
      Int.fdiv (now1 - t.registrationDate) 86400 = Int.fdiv (now2 - t.registrationDate) 86400) :
    detect_anomaly ad ds now1 tid = detect_anomaly ad ds now2 tid := by
  unfold detect_anomaly
  rw [features_now_congr ds now1 now2 tid h]

theorem score_now_congr (rs : RiskScorer) (ad : AnomalyDetector) (ds : DataStore)
    (now1 now2 : ℤ) (tid : String)
    (h : ∀ t ∈ ds.master,
      Int.fdiv (now1 - t.registrationDate) 86400 = Int.fdiv (now2 - t.registrationDate) 86400) :
    score_taxpayer rs ad ds now1 tid = score_taxpayer rs ad ds now2 tid := by
  unfold score_taxpayer
  rw [features_now_congr ds now1 now2 tid h, detect_now_congr ad ds now1 now2 tid h]

theorem anomaly_explanation_now_congr (ds : DataStore) (now1 now2 : ℤ) (tid : String)
    (h : ∀ t ∈ ds.master,
      Int.fdiv (now1 - t.registrationDate) 86400 = Int.fdiv (now2 - t.registrationDate) 86400) :
    get_anomaly_explanation ds now1 tid = get_anomaly_explanation ds now2 tid := by
  unfold get_anomaly_explanation
  rw [features_now_congr ds now1 now2 tid h]

theorem risk_explanation_now_congr (rs : RiskScorer) (ad : AnomalyDetector) (ds : DataStore)
    (now1 now2 : ℤ) (tid : String)
    (h : ∀ t ∈ ds.master,
      Int.fdiv (now1 - t.registrationDate) 86400 = Int.fdiv (now2 - t.registrationDate) 86400) :
    get_risk_explanation rs ad ds now1 tid = get_risk_explanation rs ad ds now2 tid := by
  unfold get_risk_explanation
  rw [features_now_congr ds now1 now2 tid h, score_now_congr rs ad ds now1 now2 tid h,
    anomaly_explanation_now_congr ds now1 now2 tid h]

theorem detect_all_ok_mem {ad : AnomalyDetector} {ds : DataStore} {now : ℤ}
    {l : List AnomalyResult} {r : AnomalyResult}
    (h : detect_all_anomalies ad ds now = .ok l) (hr : r ∈ l) :
    ∃ t ∈ ds.master, detect_anomaly ad ds now t.id = .ok r := by
  unfold detect_all_anomalies at h
  split at h
  · exact absurd h (by simp)
  · split at h
    · exact absurd h (by simp)
    · simp only [PyOutcome.ok.injEq] at h
      rw [← h] at hr
      rw [mem_sortDesc] at hr
      obtain ⟨o, ho, hoeq⟩ := List.mem_filterMap.mp hr
      obtain ⟨t, ht, hteq⟩ := List.mem_map.mp ho
      refine ⟨t, ht, ?_⟩
      rw [hteq]
      cases o with
      | ok a =>
        simp only [PyOutcome.toOpt, Option.some.injEq] at hoeq
        rw [hoeq]
      | noneVal => exact absurd hoeq (by simp [PyOutcome.toOpt])
      | raised => exact absurd hoeq (by simp [PyOutcome.toOpt])

theorem score_all_ok_mem {rs : RiskScorer} {ad : AnomalyDetector} {ds : DataStore} {now : ℤ}
    {l : List RiskResult} {r : RiskResult}
    (h : score_all_taxpayers rs ad ds now = .ok l) (hr : r ∈ l) :
    ∃ t ∈ ds.master, score_taxpayer rs ad ds now t.id = .ok r := by
  unfold score_all_taxpayers at h
  split at h
  · exact absurd h (by simp)
  · split at h
    · exact absurd h (by simp)
    · simp only [PyOutcome.ok.injEq] at h
      rw [← h] at hr
      rw [mem_sortDesc] at hr
      obtain ⟨o, ho, hoeq⟩ := List.mem_filterMap.mp hr
      obtain ⟨t, ht, hteq⟩ := List.mem_map.mp ho
      refine ⟨t, ht, ?_⟩
      rw [hteq]
      cases o with
      | ok a =>
        simp only [PyOutcome.toOpt, Option.some.injEq] at hoeq
        rw [hoeq]
      | noneVal => exact absurd hoeq (by simp [PyOutcome.toOpt])
      | raised => exact absurd hoeq (by simp [PyOutcome.toOpt])

theorem auditFoldr_le_one (l : List AuditRecord) :
    ((l.map (fun a => if a.finding == "Non-Compliant" then (1:ℕ) else 0)).foldr max 0) ≤ 1 := by
  induction l with
  | nil => simp
  | cons a t ih =>
    simp only [List.map_cons, List.foldr_cons]
    split <;> omega

theorem auditFoldr_eq_one_iff (l : List AuditRecord) :
    ((l.map (fun a => if a.finding == "Non-Compliant" then (1:ℕ) else 0)).foldr max 0 = 1)
      ↔ ∃ a ∈ l, a.finding = "Non-Compliant" := by
  induction l with
  | nil => simp
  | cons a t ih =>
    simp only [List.map_cons, List.foldr_cons, List.mem_cons]
    by_cases hf : a.finding = "Non-Compliant"
    · have h1 : max (if a.finding == "Non-Compliant" then (1:ℕ) else 0)
          ((t.map (fun a => if a.finding == "Non-Compliant" then (1:ℕ) else 0)).foldr max 0)
          = 1 := by
        rw [if_pos (by simp [hf])]
        exact Nat.max_eq_left (auditFoldr_le_one t)
      rw [h1]
      exact ⟨fun _ => ⟨a, Or.inl rfl, hf⟩, fun _ => rfl⟩
    · have h0 : (if a.finding == "Non-Compliant" then (1:ℕ) else 0) = 0 := by
        simp [hf]
      rw [h0, Nat.zero_max, ih]
      constructor
      · rintro ⟨x, hx, hfx⟩
        exact ⟨x, Or.inr hx, hfx⟩
      · rintro ⟨x, hx | hx, hfx⟩
        · exact absurd (hx ▸ hfx) hf
        · exact ⟨x, hx, hfx⟩

theorem isNonCompliantLabel_eq_one_iff (ds : DataStore) (tid : String) :
    isNonCompliantLabel ds tid = 1
      ↔ ∃ a ∈ ds.auditData, a.taxpayerId = tid ∧ a.finding = "Non-Compliant" := by
  unfold isNonCompliantLabel
  rw [auditFoldr_eq_one_iff]
  constructor
  · rintro ⟨a, ha, hfa⟩
    have := List.mem_filter.mp ha
    exact ⟨a, this.1, by simpa using this.2, hfa⟩
  · rintro ⟨a, ha, hta, hfa⟩
    exact ⟨a, List.mem_filter.mpr ⟨ha, by simpa using hta⟩, hfa⟩

/- ## Claims -/

/-- C2: `Risk_Level` is a deterministic step function of the risk score
with boundaries inclusive on the matched side: a score of at least 0.7 is
CRITICAL (0.70 exactly is CRITICAL), at least 0.5 and below 0.7 is HIGH
(0.5 exactly is HIGH, 0.6999 is HIGH), at least 0.3 and below 0.5 is
MEDIUM (0.30 exactly is MEDIUM), and below 0.3 is LOW (0.2999 is LOW). -/
theorem claim_C2_risk_level_thresholds :
    (∀ s : ℚ, 7/10 ≤ s → getRiskLevel s = "CRITICAL")
    ∧ (∀ s : ℚ, 1/2 ≤ s → s < 7/10 → getRiskLevel s = "HIGH")
    ∧ (∀ s : ℚ, 3/10 ≤ s → s < 1/2 → getRiskLevel s = "MEDIUM")
    ∧ (∀ s : ℚ, s < 3/10 → getRiskLevel s = "LOW")
    ∧ getRiskLevel (7/10) = "CRITICAL"
    ∧ getRiskLevel (6999/10000) = "HIGH"
    ∧ getRiskLevel (3/10) = "MEDIUM"
    ∧ getRiskLevel (2999/10000) = "LOW" := by
  refine ⟨?_, ?_, ?_, ?_, by decide, by decide, by decide, by decide⟩
  · intro s h
    unfold getRiskLevel
    rw [if_pos h]
  · intro s h1 h2
    unfold getRiskLevel
    rw [if_neg (not_le.mpr h2), if_pos h1]
  · intro s h1 h2
    unfold getRiskLevel
    rw [if_neg (not_le.mpr (by linarith)), if_neg (not_le.mpr h2), if_pos h1]
  · intro s h
    unfold getRiskLevel
    rw [if_neg (not_le.mpr (by linarith)), if_neg (not_le.mpr (by linarith)),
      if_neg (not_le.mpr h)]

/-- Witness for C2 at the concrete score 0.6. -/
theorem claim_C2_witness :
    (1:ℚ)/2 ≤ 6/10 ∧ (6:ℚ)/10 < 7/10 ∧ getRiskLevel (6/10) = "HIGH" :=
  ⟨by norm_num, by norm_num,
    claim_C2_risk_level_thresholds.2.1 (6/10) (by norm_num) (by norm_num)⟩

/-- C5: the training label of a taxpayer is the logical OR (max of 0/1)
over its audit records of the indicator `Audit_Finding == "Non-Compliant"`:
the label is 1 exactly when some audit record of the taxpayer found
non-compliance; concretely, a taxpayer with findings
[Compliant, Non-Compliant] gets label 1, one with only [Compliant] gets 0,
and one with no audit record gets 0. -/
theorem claim_C5_training_labels :
    (∀ (ds : DataStore) (tid : String),
      isNonCompliantLabel ds tid = 1
        ↔ ∃ a ∈ ds.auditData, a.taxpayerId = tid ∧ a.finding = "Non-Compliant")
    ∧ trainingLabels dsC5 0 = [("TA", 1), ("TB", 0), ("TC", 0)] :=
  ⟨isNonCompliantLabel_eq_one_iff, by decide⟩

/-- C10: `score_taxpayer` computes `Risk_Level` from the unrounded
predicted probability while reporting `Risk_Score` rounded to 4 decimals;
at predicted probability 0.69996 the reported `Risk_Score` is 0.7 with
`Risk_Level` HIGH, while the threshold step function applied to the
reported 0.7 would give CRITICAL. -/
theorem claim_C10_round_level_divergence :
    score_taxpayer rsC10 adCex dsW 0 "T1" = .ok resC10
    ∧ resC10.riskScore = round4 (69996/100000)
    ∧ resC10.riskLevel = getRiskLevel (69996/100000)
    ∧ resC10.riskScore = 7/10
    ∧ resC10.riskLevel = "HIGH"
    ∧ getRiskLevel resC10.riskScore = "CRITICAL"
    ∧ resC10.riskLevel ≠ getRiskLevel resC10.riskScore :=
  ⟨by decide, by decide, by decide, by decide, by decide, by decide, by decide⟩

/-- C6: the anomaly explanation is built by two independent rules with
strict inequalities joined by a delimiter: the ratio rule fires exactly
when `ratio_deviation` (0 when the benchmark is not positive) exceeds 1 or
is below -0.5, the growth rule fires exactly when `Revenue_Growth` exceeds
0.5 or is below -0.3 (so 0.5 exactly triggers nothing while 0.51 does),
and when no rule fires the explanation is exactly
"No significant anomalies detected". -/
theorem claim_C6_explanation_rules :
    (∀ itr bm : ℚ, ratioMsg itr bm ≠ []
      ↔ (ratioDevOf itr bm > 1 ∨ ratioDevOf itr bm < -(1/2)))
    ∧ (∀ bm itr : ℚ, ¬ bm > 0 → ratioDevOf itr bm = 0)
    ∧ (∀ g : ℚ, growthMsg g ≠ [] ↔ (g > 1/2 ∨ g < -(3/10)))
    ∧ growthMsg (1/2) = []
    ∧ growthMsg (51/100) ≠ []
    ∧ (∀ itr g bm : ℚ, ratioMsg itr bm = [] → growthMsg g = [] →
        generateExplanation itr g bm = "No significant anomalies detected")
    ∧ (∀ itr g bm : ℚ, ratioMsg itr bm ++ growthMsg g ≠ [] →
        generateExplanation itr g bm =
          String.intercalate " | " (ratioMsg itr bm ++ growthMsg g)) := by
  refine ⟨?_, ?_, ?_, by decide, by decide, ?_, ?_⟩
  · intro itr bm
    unfold ratioMsg
    split
    · rename_i h
      exact ⟨fun _ => Or.inl h, fun _ => by simp⟩
    · split
      · rename_i h1 h2
        exact ⟨fun _ => Or.inr h2, fun _ => by simp⟩
      · rename_i h1 h2
        constructor
        · intro hne
          exact absurd rfl hne
        · intro hor
          rcases hor with h | h
          · exact absurd h h1
          · exact absurd h h2
  · intro bm itr h
    unfold ratioDevOf
    rw [if_neg h]
  · intro g
    unfold growthMsg
    split
    · rename_i h
      exact ⟨fun _ => Or.inl h, fun _ => by simp⟩
    · split
      · rename_i h1 h2
        exact ⟨fun _ => Or.inr h2, fun _ => by simp⟩
      · rename_i h1 h2
        constructor
        · intro hne
          exact absurd rfl hne
        · intro hor
          rcases hor with h | h
          · exact absurd h h1
          · exact absurd h h2
  · intro itr g bm h1 h2
    unfold generateExplanation
    rw [h1, h2]
    rfl
  · intro itr g bm h
    unfold generateExplanation
    rw [if_neg (by simpa using h)]

/-- Witness for C6 on inputs where no rule fires. -/
theorem claim_C6_witness :
    ratioMsg 1 1 = [] ∧ growthMsg 0 = []
    ∧ generateExplanation 1 0 1 = "No significant anomalies detected" :=
  ⟨by decide, by decide,
    claim_C6_explanation_rules.2.2.2.2.2.1 1 0 1 (by decide) (by decide)⟩

/-- C8: `get_industry_benchmark` returns aggregate `Input_Tax_Claim`
divided by aggregate `Gross_Revenue` over all returns of the industry's
taxpayers, and exactly 0.1 when the industry has no associated returns or
the aggregate revenue is not positive. -/
theorem claim_C8_industry_benchmark (ds : DataStore) (code : String) :
    (industryReturnsOf ds code = [] → get_industry_benchmark ds code = 1/10)
    ∧ (((industryReturnsOf ds code).map (fun r => r.grossRevenue)).sum ≤ 0 →
        get_industry_benchmark ds code = 1/10)
    ∧ (0 < ((industryReturnsOf ds code).map (fun r => r.grossRevenue)).sum →
        get_industry_benchmark ds code =
          ((industryReturnsOf ds code).map (fun r => r.inputTaxClaim)).sum /
            ((industryReturnsOf ds code).map (fun r => r.grossRevenue)).sum) := by
  refine ⟨?_, ?_, ?_⟩
  · intro h
    unfold get_industry_benchmark
    rw [if_pos (by simp [h])]
  · intro h
    unfold get_industry_benchmark
    split
    · rfl
    · rw [if_neg (not_lt.mpr h)]
  · intro h
    unfold get_industry_benchmark
    rw [if_neg ?_, if_pos h]
    intro hemp
    rw [List.isEmpty_iff] at hemp
    rw [hemp] at h
    simp at h

/-- Witness for C8: the default on an unknown industry code and the exact
quotient on a populated one, in `dsW`. -/
theorem claim_C8_witness :
    industryReturnsOf dsW "NOPE" = []
    ∧ get_industry_benchmark dsW "NOPE" = 1/10
    ∧ (0:ℚ) < ((industryReturnsOf dsW "IND1").map (fun r => r.grossRevenue)).sum
    ∧ get_industry_benchmark dsW "IND1" =
        ((industryReturnsOf dsW "IND1").map (fun r => r.inputTaxClaim)).sum /
          ((industryReturnsOf dsW "IND1").map (fun r => r.grossRevenue)).sum :=
  ⟨by decide, (claim_C8_industry_benchmark dsW "NOPE").1 (by decide), by decide,
    (claim_C8_industry_benchmark dsW "IND1").2.2 (by decide)⟩

/-- C7: degenerate divisions in feature derivation yield 0: for every
taxpayer with a Feature Vector, `Input_Tax_Ratio` is 0 whenever the latest
return's `Gross_Revenue` is not positive, and `Revenue_Growth` is 0
whenever there are fewer than two returns or the previous return's
`Gross_Revenue` is not positive. -/
theorem claim_C7_degenerate_divisions (ds : DataStore) (now : ℤ) (tid : String) (f : Features)
    (hf : get_taxpayer_features ds now tid = some f) :
    (∀ lr, (ds.returnsData.filter (fun r => r.taxpayerId == tid)).getLast? = some lr →
      lr.grossRevenue ≤ 0 → f.inputTaxRatio_ = 0)
    ∧ ((ds.returnsData.filter (fun r => r.taxpayerId == tid)).length < 2 →
        f.revenueGrowth = 0)
    ∧ (∀ lr pr rest2,
        (ds.returnsData.filter (fun r => r.taxpayerId == tid)).reverse = lr :: pr :: rest2 →
        pr.grossRevenue ≤ 0 → f.revenueGrowth = 0) := by
  unfold get_taxpayer_features at hf
  split at hf
  · exact absurd hf (by simp)
  · split at hf
    · exact absurd hf (by simp)
    · rename_i latest rest hr
      simp only [Option.some.injEq] at hf
      subst hf
      refine ⟨?_, ?_, ?_⟩
      · intro lr hlast hle
        have hlat : (ds.returnsData.filter (fun r => r.taxpayerId == tid)).getLast?
            = some latest := by
          rw [List.getLast?_eq_head?_reverse, hr]
          rfl
        rw [hlast] at hlat
        simp only [Option.some.injEq] at hlat
        subst hlat
        simp only
        rw [if_neg (not_lt.mpr hle)]
      · intro hlen
        have hlenr : (ds.returnsData.filter (fun r => r.taxpayerId == tid)).reverse.length < 2 := by
          rw [List.length_reverse]
          exact hlen
        rw [hr] at hlenr
        simp only [List.length_cons] at hlenr
        have : rest = [] := List.length_eq_zero.mp (by omega)
        subst this
        simp only
      · intro lr pr rest2 hrev hle
        rw [hr] at hrev
        simp only [List.cons.injEq] at hrev
        obtain ⟨he1, he2⟩ := hrev
        subst he2
        simp only
        rw [if_neg (not_lt.mpr hle)]

/-- Witness for C7: taxpayer `T7` of `ds7`, whose latest return has
negative revenue and whose previous return has zero revenue; both derived
ratios are 0. -/
theorem claim_C7_witness :
    get_taxpayer_features ds7 0 "T7" = some f7
    ∧ (ds7.returnsData.filter (fun r => r.taxpayerId == "T7")).getLast? = some r7latest
    ∧ r7latest.grossRevenue ≤ 0
    ∧ f7.inputTaxRatio_ = 0
    ∧ f7.revenueGrowth = 0 :=
  ⟨by decide, by decide, by decide,
    (claim_C7_degenerate_divisions ds7 0 "T7" f7 (by decide)).1 r7latest (by decide) (by decide),
    (claim_C7_degenerate_divisions ds7 0 "T7" f7 (by decide)).2.2 r7latest
      { taxpayerId := "T7", taxPeriod := 0, grossRevenue := 0, taxLiability := 0, inputTaxClaim := 3 }
      [] (by decide) (by decide)⟩

/-- C4: for a taxpayer id that is unknown (no master row) or has zero
returns, `get_taxpayer_features` returns `None`, and no row of a
successful `detect_all_anomalies` or `score_all_taxpayers` output carries
that id — the aggregate operations silently skip the `None`s. -/
theorem claim_C4_skip_missing (ds : DataStore) (ad : AnomalyDetector) (rs : RiskScorer)
    (now : ℤ) (tid : String)
    (h : ds.master.filter (fun t => t.id == tid) = []
       ∨ ds.returnsData.filter (fun r => r.taxpayerId == tid) = []) :
    get_taxpayer_features ds now tid = none
    ∧ (∀ l, detect_all_anomalies ad ds now = .ok l → ∀ r ∈ l, r.taxpayerId ≠ tid)
    ∧ (∀ l, score_all_taxpayers rs ad ds now = .ok l → ∀ r ∈ l, r.taxpayerId ≠ tid) := by
  have hnone : get_taxpayer_features ds now tid = none := by
    unfold get_taxpayer_features
    rcases h with h | h
    · simp only [h]
    · rcases hm : ds.master.filter (fun t => t.id == tid) with _ | ⟨tp, tl⟩
      · simp only [hm]
      · simp only [hm, h, List.reverse_nil]
  refine ⟨hnone, ?_, ?_⟩
  · intro l hl r hr hrt
    obtain ⟨t, ht, hdet⟩ := detect_all_ok_mem hl hr
    have hti : r.taxpayerId = t.id := detect_anomaly_ok_tid hdet
    rw [hrt] at hti
    rw [← hti] at hdet
    rw [detect_anomaly_of_none hnone] at hdet
    exact absurd hdet (by simp)
  · intro l hl r hr hrt
    obtain ⟨t, ht, hsc⟩ := score_all_ok_mem hl hr
    have hti : r.taxpayerId = t.id := score_taxpayer_ok_tid hsc
    rw [hrt] at hti
    rw [← hti] at hsc
    rw [score_taxpayer_of_none hnone] at hsc
    exact absurd hsc (by simp)

/-- Witness for C4: in `dsC5` extended mentally by an unknown id, taxpayer
`TX` has no master row, so its features are `None` and a successful
`detect_all_anomalies` run over `dsC5` contains no row for it. -/
theorem claim_C4_witness :
    dsC5.master.filter (fun t => t.id == "TX") = []
    ∧ get_taxpayer_features dsC5 0 "TX" = none
    ∧ (∀ l, detect_all_anomalies adW dsC5 0 = .ok l → ∀ r ∈ l, r.taxpayerId ≠ "TX") :=
  ⟨by decide, (claim_C4_skip_missing dsC5 adW rsW 0 "TX" (Or.inl (by decide))).1,
    (claim_C4_skip_missing dsC5 adW rsW 0 "TX" (Or.inl (by decide))).2.1⟩

/-- C1 counterexample: under the detector `adCex` whose raw outlier
measure is constantly -1/3, the clamped affine-mapped score for `T1` in
`dsW` is exactly 2/3, but the `Anomaly_Score` field that `detect_anomaly`
returns is 0.6667 — the reported score is not equal to the clamped value,
it is that value rounded to 4 decimal places. -/
theorem claim_C1_counterexample :
    get_taxpayer_features dsW 0 "T1" = some fW
    ∧ anomalyScoreCore (fun _ => -(1/3)) scaler3Id (featX fW) = 2/3
    ∧ detect_anomaly adCex dsW 0 "T1" = .ok resCex
    ∧ resCex.anomalyScore ≠ 2/3 :=
  ⟨by decide, by decide, by decide, by decide⟩

/-- C1 (amended): with trained scalers and models, `detect_anomaly`
returns the result row whose `Anomaly_Score` is the negated raw outlier
measure on the standardized infinity-zeroed 3-feature vector, affine-mapped
by (raw+1)/2, clamped to [0,1] and then rounded to 4 decimal places, with
`Is_Anomalous` comparing the unrounded clamped score with 0.5; the clamped
score lies in [0,1] for every raw feature vector, infinities included, the
reported `Anomaly_Score` lies in [0,1], and, whenever `predict_proba` is a
probability, so does the reported `Risk_Score` of `score_taxpayer`. -/
theorem claim_C1_amended (ad : AnomalyDetector) (rs : RiskScorer) (ds : DataStore)
    (now : ℤ) (tid : String) (sc3 : Scaler3) (m3 : (Fin 3 → ℚ) → ℚ)
    (sc5 : Scaler5) (m5 : RiskModel)
    (h3s : ad.scaler = some sc3) (h3m : ad.model = some m3)
    (h5s : rs.scaler = some sc5) (h5m : rs.model = some m5)
    (hp : ∀ x, 0 ≤ m5.predictProba x ∧ m5.predictProba x ≤ 1) :
    (∀ x : Fin 3 → XQ, 0 ≤ anomalyScoreCore m3 sc3 x ∧ anomalyScoreCore m3 sc3 x ≤ 1)
    ∧ (∀ f, get_taxpayer_features ds now tid = some f →
        detect_anomaly ad ds now tid = .ok
          { taxpayerId := tid
            businessName := f.businessName
            industryName := f.industryName
            inputTaxRatio_ := round4 f.inputTaxRatio_
            revenueGrowth := round4 f.revenueGrowth
            anomalyScore := round4 (anomalyScoreCore m3 sc3 (featX f))
            isAnomalous := decide (anomalyScoreCore m3 sc3 (featX f) > 1/2) })
    ∧ (∀ r, detect_anomaly ad ds now tid = .ok r → 0 ≤ r.anomalyScore ∧ r.anomalyScore ≤ 1)
    ∧ (∀ r, score_taxpayer rs ad ds now tid = .ok r → 0 ≤ r.riskScore ∧ r.riskScore ≤ 1) := by
  refine ⟨anomalyScoreCore_mem_unit m3 sc3, ?_, ?_, ?_⟩
  · intro f hf
    exact detect_anomaly_trained hf h3s h3m
  · intro r hok
    rcases hf : get_taxpayer_features ds now tid with _ | f
    · rw [detect_anomaly_of_none hf] at hok
      exact absurd hok (by simp)
    · rw [detect_anomaly_trained hf h3s h3m] at hok
      simp only [PyOutcome.ok.injEq] at hok
      rw [← hok]
      obtain ⟨hc0, hc1⟩ := anomalyScoreCore_mem_unit m3 sc3 (featX f)
      exact round4_mem_unit hc0 hc1
  · intro r hok
    obtain ⟨sc, m, f, asc, hscx, hmx, hfx, hr⟩ := score_taxpayer_ok_shape hok
    rw [h5s] at hscx
    rw [h5m] at hmx
    injection hscx with hsceq
    injection hmx with hmeq
    rw [← hsceq, ← hmeq] at hr
    rw [hr]
    obtain ⟨hp0, hp1⟩ := hp (riskScaled sc5 f asc)
    exact round4_mem_unit hp0 hp1

/-- Witness for C1 (amended) at the trained pipeline `adW`, `rsW` on
taxpayer `T1` of `dsW`. -/
theorem claim_C1_witness :
    detect_anomaly adW dsW 0 "T1" = .ok resW
    ∧ (0 ≤ resW.anomalyScore ∧ resW.anomalyScore ≤ 1)
    ∧ score_taxpayer rsW adW dsW 0 "T1" = .ok rresW
    ∧ (0 ≤ rresW.riskScore ∧ rresW.riskScore ≤ 1) :=
  ⟨by decide,
    (claim_C1_amended adW rsW dsW 0 "T1" scaler3Id m3W scaler5Id m5W rfl rfl rfl rfl
      (fun _ => by constructor <;> norm_num [m5W])).2.2.1 resW (by decide),
    by decide,
    (claim_C1_amended adW rsW dsW 0 "T1" scaler3Id m3W scaler5Id m5W rfl rfl rfl rfl
      (fun _ => by constructor <;> norm_num [m5W])).2.2.2 rresW (by decide)⟩

/-- C3 counterexample: the same data store, the same taxpayer id, two
calls of `get_taxpayer_features` at clock readings one day apart give
different results — `Days_Since_Registration` is taken from the wall
clock inside the call. -/
theorem claim_C3_counterexample :
    get_taxpayer_features dsW 0 "T1" ≠ get_taxpayer_features dsW 86400 "T1" := by decide

/-- C3 (amended): once the Data Store is fixed, every pipeline operation
is deterministic in the store, the trained models and the clock reading:
two calls whose clock readings assign the same day count to every
registration date in the store return equal results, for
`get_taxpayer_features`, `detect_anomaly`, `score_taxpayer` and both
explanation operations.  Calls crossing a day boundary may differ, in
`Days_Since_Registration` only. -/
theorem claim_C3_amended (ds : DataStore) (now1 now2 : ℤ) (tid : String)
    (h : ∀ t ∈ ds.master,
      Int.fdiv (now1 - t.registrationDate) 86400 = Int.fdiv (now2 - t.registrationDate) 86400) :
    get_taxpayer_features ds now1 tid = get_taxpayer_features ds now2 tid
    ∧ (∀ ad, detect_anomaly ad ds now1 tid = detect_anomaly ad ds now2 tid)
    ∧ (∀ rs ad, score_taxpayer rs ad ds now1 tid = score_taxpayer rs ad ds now2 tid)
    ∧ get_anomaly_explanation ds now1 tid = get_anomaly_explanation ds now2 tid
    ∧ (∀ rs ad, get_risk_explanation rs ad ds now1 tid = get_risk_explanation rs ad ds now2 tid) :=
  ⟨features_now_congr ds now1 now2 tid h,
   fun ad => detect_now_congr ad ds now1 now2 tid h,
   fun rs ad => score_now_congr rs ad ds now1 now2 tid h,
   anomaly_explanation_now_congr ds now1 now2 tid h,
   fun rs ad => risk_explanation_now_congr rs ad ds now1 now2 tid h⟩

/-- Witness for C3 (amended): two clock readings an hour apart within the
same day since registration give identical features in `dsW`. -/
theorem claim_C3_witness :
    (∀ t ∈ dsW.master,
      Int.fdiv ((0:ℤ) - t.registrationDate) 86400
        = Int.fdiv ((3600:ℤ) - t.registrationDate) 86400)
    ∧ get_taxpayer_features dsW 0 "T1" = get_taxpayer_features dsW 3600 "T1" :=
  ⟨by decide, (claim_C3_amended dsW 0 3600 "T1" (by decide)).1⟩

theorem features_some_master {ds : DataStore} {now : ℤ} {tid : String} {f : Features}
    (h : get_taxpayer_features ds now tid = some f) :
    ∃ tp ∈ ds.master, tp.id = tid := by
  unfold get_taxpayer_features at h
  split at h
  · exact absurd h (by simp)
  · rename_i tp tl hm
    have htp : tp ∈ ds.master.filter (fun t => t.id == tid) := by
      rw [hm]
      exact List.mem_cons_self tp tl
    have := List.mem_filter.mp htp
    exact ⟨tp, this.1, by simpa using this.2⟩

/-- C9 counterexample: before any training, `get_feature_importance`
returns Python `None` silently rather than raising, and
`get_anomaly_explanation` returns a full result — it consults no model at
all; two of the listed inference operations do not fail loudly. -/
theorem claim_C9_counterexample :
    get_feature_importance rsU = .noneVal
    ∧ (PyOutcome.noneVal : PyOutcome (List (String × ℚ))) ≠ .raised
    ∧ (get_anomaly_explanation dsW 0 "T1").isSome = true :=
  ⟨by decide, by decide, by decide⟩

/-- C9 (amended): with both models untrained and a taxpayer that has a
Feature Vector, `detect_anomaly`, `score_taxpayer`,
`detect_all_anomalies`, `score_all_taxpayers` and `get_risk_explanation`
all raise; but `get_anomaly_explanation` returns a normal result without
any trained model, and `get_feature_importance` silently returns null. -/
theorem claim_C9_amended (ad : AnomalyDetector) (rs : RiskScorer) (ds : DataStore)
    (now : ℤ) (tid : String) (f : Features)
    (hads : ad.scaler = none) (hrss : rs.scaler = none) (hrsm : rs.model = none)
    (hf : get_taxpayer_features ds now tid = some f) :
    detect_anomaly ad ds now tid = .raised
    ∧ score_taxpayer rs ad ds now tid = .raised
    ∧ detect_all_anomalies ad ds now = .raised
    ∧ score_all_taxpayers rs ad ds now = .raised
    ∧ get_risk_explanation rs ad ds now tid = .raised
    ∧ (get_anomaly_explanation ds now tid).isSome = true
    ∧ get_feature_importance rs = .noneVal := by
  have d1 : detect_anomaly ad ds now tid = .raised := detect_anomaly_unfitted hf hads
  have s1 : score_taxpayer rs ad ds now tid = .raised := by
    unfold score_taxpayer
    rw [hf, d1]
  obtain ⟨tp, htp, htid⟩ := features_some_master hf
  have dtp : detect_anomaly ad ds now tp.id = .raised := by
    rw [htid]
    exact d1
  have stp : score_taxpayer rs ad ds now tp.id = .raised := by
    rw [htid]
    exact s1
  have hany : ((ds.master.map (fun t => detect_anomaly ad ds now t.id)).any
      PyOutcome.isRaised) = true := by
    rw [List.any_eq_true]
    refine ⟨detect_anomaly ad ds now tp.id, List.mem_map.mpr ⟨tp, htp, rfl⟩, ?_⟩
    rw [dtp]
    rfl
  have sany : ((ds.master.map (fun t => score_taxpayer rs ad ds now t.id)).any
      PyOutcome.isRaised) = true := by
    rw [List.any_eq_true]
    refine ⟨score_taxpayer rs ad ds now tp.id, List.mem_map.mpr ⟨tp, htp, rfl⟩, ?_⟩
    rw [stp]
    rfl
  refine ⟨d1, s1, ?_, ?_, ?_, ?_, ?_⟩
  · unfold detect_all_anomalies
    rw [if_pos hany]
  · unfold score_all_taxpayers
    rw [if_pos sany]
  · unfold get_risk_explanation
    rw [s1]
  · unfold get_anomaly_explanation
    rw [hf]
    rfl
  · unfold get_feature_importance
    rw [hrsm]

/-- Witness for C9 (amended): the untrained `adU`, `rsU` on taxpayer `T1`
of `dsW`. -/
theorem claim_C9_witness :
    get_taxpayer_features dsW 0 "T1" = some fW
    ∧ detect_anomaly adU dsW 0 "T1" = .raised
    ∧ score_taxpayer rsU adU dsW 0 "T1" = .raised
    ∧ detect_all_anomalies adU dsW 0 = .raised :=
  ⟨by decide,
    (claim_C9_amended adU rsU dsW 0 "T1" fW rfl rfl rfl (by decide)).1,
    (claim_C9_amended adU rsU dsW 0 "T1" fW rfl rfl rfl (by decide)).2.1,
    (claim_C9_amended adU rsU dsW 0 "T1" fW rfl rfl rfl (by decide)).2.2.1⟩
